import Mathlib

/-!
Verification of the session-orchestration layer of the `full_stack_template`
frontend (React + Redux Toolkit).  The Redux slices under
`src/frontend/src/auth/` are shallowly embedded: each slice's state interface
becomes a structure, each reducer (including the `extraReducers` for the
async-thunk lifecycle actions `pending` / `fulfilled` / `rejected`) becomes a
pure function, and the store's combined reducer (`store.ts`) becomes a fold
over a global action type.  Async thunk bodies are embedded as the list of
actions they dispatch and the network requests they issue, indexed by the
outcome of the awaited API calls.
-/

set_option autoImplicit false
set_option linter.unusedVariables false

namespace FrontendAuth

/-! ### Current-user slice (src/frontend/src/auth/current_user/current_user_slice.ts)

`CurrentUserState` is the session store: `isAuthenticated` is
`boolean | null` in the source (`null` = not checked yet), embedded as
`Option Bool`. -/

structure CurrentUserState where
  isAuthenticated : Option Bool
  loading : Bool
  error : Option String
deriving DecidableEq, Repr

/-- Initial state of the current-user slice: `null / false / null`. -/
def currentUserInitial : CurrentUserState :=
  { isAuthenticated := none, loading := false, error := none }

/-- Actions handled by the current-user slice: the `fetchCurrentUser` thunk
lifecycle plus the `resetAuthState` reducer. -/
inductive CUAction where
  | fetchPending
  | fetchFulfilled (payload : Bool)
  | fetchRejected
  | resetAuthState
deriving DecidableEq, Repr

/-- The current-user slice reducer (`reducers` + `extraReducers`). -/
def cuReduce (s : CurrentUserState) : CUAction → CurrentUserState
  | .fetchPending => { s with loading := true, error := none }
  | .fetchFulfilled payload => { s with loading := false, isAuthenticated := some payload }
  | .fetchRejected =>
      { isAuthenticated := some false, loading := false,
        error := some "Failed to fetch current user" }
  | .resetAuthState => { isAuthenticated := none, loading := false, error := none }

/-! ### Message-carrying flow slices

`signup`, `logout`, `logout_all`, `verify_account`, `password_reset_request`
and `password_reset_confirm` all use the same state shape
`{ loading, error, successMessage }`. -/

structure MsgState where
  loading : Bool
  error : Option String
  successMessage : Option String
deriving DecidableEq, Repr

/-- Initial state shared by all message-carrying flow slices. -/
def msgInitial : MsgState := { loading := false, error := none, successMessage := none }

/-- Thunk-lifecycle actions of a message-carrying flow slice.  The `rejected`
payload is the value passed to `rejectWithValue` (absent when the thunk threw
without one), matching `action.payload` being possibly `undefined`. -/
inductive MsgAction where
  | pending
  | fulfilled (message : String)
  | rejected (payload : Option String)
  | clear
deriving DecidableEq, Repr

/-- Reducer of the single-device logout slice
(src/frontend/src/auth/logout/logout_slice.ts): `fulfilled` stores the
success message without touching `error`; `rejected` stores
`action.payload || "Logout failed"` without touching `successMessage`. -/
def logoutReduce (s : MsgState) : MsgAction → MsgState
  | .pending => { loading := true, error := none, successMessage := none }
  | .fulfilled m => { s with loading := false, successMessage := some m }
  | .rejected p => { s with loading := false, error := some (p.getD "Logout failed") }
  | .clear => { loading := false, error := none, successMessage := none }

/-- Reducer of the logout-all slice
(src/frontend/src/auth/logout_all/logout_all_slice.ts): unlike the
single-device logout slice, `fulfilled` also sets `error := null` and
`rejected` also sets `successMessage := null`. -/
def logoutAllReduce (s : MsgState) : MsgAction → MsgState
  | .pending => { loading := true, error := none, successMessage := none }
  | .fulfilled m => { loading := false, error := none, successMessage := some m }
  | .rejected p =>
      { loading := false, error := some (p.getD "Logout all devices failed"),
        successMessage := none }
  | .clear => { loading := false, error := none, successMessage := none }

/-- Reducer of the signup slice (src/frontend/src/auth/signup/signup_slice.ts). -/
def signupReduce (s : MsgState) : MsgAction → MsgState
  | .pending => { loading := true, error := none, successMessage := none }
  | .fulfilled m => { s with loading := false, successMessage := some m }
  | .rejected p => { s with loading := false, error := some (p.getD "Signup failed") }
  | .clear => { loading := false, error := none, successMessage := none }

/-- Reducer of the verify-account slice
(src/frontend/src/auth/verify_account/verify_account_slice.ts). -/
def verifyAccountReduce (s : MsgState) : MsgAction → MsgState
  | .pending => { loading := true, error := none, successMessage := none }
  | .fulfilled m => { s with loading := false, successMessage := some m }
  | .rejected p =>
      { s with loading := false, error := some (p.getD "Account verification failed") }
  | .clear => { loading := false, error := none, successMessage := none }

/-- Reducer of the password-reset-request slice
(src/frontend/src/auth/password_reset_request/password_reset_request_slice.ts). -/
def passwordResetRequestReduce (s : MsgState) : MsgAction → MsgState
  | .pending => { loading := true, error := none, successMessage := none }
  | .fulfilled m => { s with loading := false, successMessage := some m }
  | .rejected p =>
      { s with loading := false, error := some (p.getD "Password reset request failed") }
  | .clear => { loading := false, error := none, successMessage := none }

/-- Reducer of the password-reset-confirm slice
(src/frontend/src/auth/password_reset_confirm/password_reset_confirm_slice.ts). -/
def passwordResetConfirmReduce (s : MsgState) : MsgAction → MsgState
  | .pending => { loading := true, error := none, successMessage := none }
  | .fulfilled m => { s with loading := false, successMessage := some m }
  | .rejected p =>
      { s with loading := false, error := some (p.getD "Password reset confirmation failed") }
  | .clear => { loading := false, error := none, successMessage := none }

/-! ### Login slice, bearer-token variant (src/frontend/src/auth/login/login_slice.ts,
first document): state `{ loading, error, accessToken, refreshToken }`. -/

structure LoginState where
  loading : Bool
  error : Option String
  accessToken : Option String
  refreshToken : Option String
deriving DecidableEq, Repr

/-- Initial state of the bearer-variant login slice. -/
def loginInitial : LoginState :=
  { loading := false, error := none, accessToken := none, refreshToken := none }

/-- Actions handled by the bearer-variant login slice: the `loginUser` thunk
lifecycle plus the `clearLoginState` reducer. -/
inductive LoginAction where
  | pending
  | fulfilled (accessToken refreshToken : String)
  | rejected (payload : Option String)
  | clearLoginState
deriving DecidableEq, Repr

/-- The bearer-variant login slice reducer.  `pending` sets `loading` and
clears `error` only; `fulfilled` stores the returned tokens; `rejected`
stores `action.payload || "Login failed"`; `clearLoginState` resets all four
fields. -/
def loginReduce (s : LoginState) : LoginAction → LoginState
  | .pending => { s with loading := true, error := none }
  | .fulfilled a r => { s with loading := false, accessToken := some a, refreshToken := some r }
  | .rejected p => { s with loading := false, error := some (p.getD "Login failed") }
  | .clearLoginState =>
      { loading := false, error := none, accessToken := none, refreshToken := none }

/-! ### OAuth2 slice (src/frontend/src/auth/oauth2/oauth2_slice.ts) -/

structure OAuthUser where
  id : String
  email : String
  role : String
deriving DecidableEq, Repr

structure OAuth2State where
  loading : Bool
  error : Option String
  isAuthenticated : Bool
  user : Option OAuthUser
deriving DecidableEq, Repr

/-- Initial state of the OAuth2 slice. -/
def oauth2Initial : OAuth2State :=
  { loading := false, error := none, isAuthenticated := false, user := none }

/-- The OAuth2 slice's own reducers. -/
inductive OAuth2Action where
  | setUserSession (u : OAuthUser)
  | clearUserSession
  | setOAuth2Error (e : String)
  | setOAuth2Loading
deriving DecidableEq, Repr

/-- Reducer for the OAuth2 slice's own actions. -/
def oauth2Reduce (s : OAuth2State) : OAuth2Action → OAuth2State
  | .setUserSession u => { loading := false, error := none, isAuthenticated := true, user := some u }
  | .clearUserSession => { loading := false, error := none, isAuthenticated := false, user := none }
  | .setOAuth2Error e => { loading := false, error := some e, isAuthenticated := false, user := none }
  | .setOAuth2Loading => { s with loading := true, error := none }

/-- The OAuth2 slice's `extraReducers` for the `fetchCurrentUser` thunk:
`pending` sets loading, `fulfilled` copies the boolean payload into
`isAuthenticated`, `rejected` marks unauthenticated without setting `error`.
The slice has no case for `resetAuthState`, so that action leaves it
unchanged. -/
def oauth2FetchReduce (s : OAuth2State) : CUAction → OAuth2State
  | .fetchPending => { s with loading := true, error := none }
  | .fetchFulfilled payload => { s with loading := false, isAuthenticated := payload }
  | .fetchRejected => { s with loading := false, isAuthenticated := false }
  | .resetAuthState => s

/-! ### The store (src/frontend/src/store/store.ts)

Nine slices, combined by `configureStore`.  Every dispatched action reaches
every slice reducer; each action type below is matched by exactly one slice,
except the `fetchCurrentUser` lifecycle actions which are matched by both the
`currentUser` and the `oauth2` slices. -/

structure RootState where
  login : LoginState
  signup : MsgState
  logout : MsgState
  logoutAll : MsgState
  oauth2 : OAuth2State
  verifyAccount : MsgState
  passwordResetRequest : MsgState
  passwordResetConfirm : MsgState
  currentUser : CurrentUserState
deriving DecidableEq, Repr

/-- The store's initial state: every slice at its initial state. -/
def rootInitial : RootState :=
  { login := loginInitial, signup := msgInitial, logout := msgInitial,
    logoutAll := msgInitial, oauth2 := oauth2Initial, verifyAccount := msgInitial,
    passwordResetRequest := msgInitial, passwordResetConfirm := msgInitial,
    currentUser := currentUserInitial }

/-- Global action type, tagged by the slice whose action types it carries. -/
inductive Action where
  | login (a : LoginAction)
  | signup (a : MsgAction)
  | logout (a : MsgAction)
  | logoutAll (a : MsgAction)
  | oauth2 (a : OAuth2Action)
  | verifyAccount (a : MsgAction)
  | passwordResetRequest (a : MsgAction)
  | passwordResetConfirm (a : MsgAction)
  | currentUser (a : CUAction)
deriving DecidableEq, Repr

/-- The combined store reducer: each action updates the slice(s) whose
reducers match its action type and leaves every other slice unchanged. -/
def rootReduce (s : RootState) : Action → RootState
  | .login a => { s with login := loginReduce s.login a }
  | .signup a => { s with signup := signupReduce s.signup a }
  | .logout a => { s with logout := logoutReduce s.logout a }
  | .logoutAll a => { s with logoutAll := logoutAllReduce s.logoutAll a }
  | .oauth2 a => { s with oauth2 := oauth2Reduce s.oauth2 a }
  | .verifyAccount a => { s with verifyAccount := verifyAccountReduce s.verifyAccount a }
  | .passwordResetRequest a =>
      { s with passwordResetRequest := passwordResetRequestReduce s.passwordResetRequest a }
  | .passwordResetConfirm a =>
      { s with passwordResetConfirm := passwordResetConfirmReduce s.passwordResetConfirm a }
  | .currentUser a =>
      { s with currentUser := cuReduce s.currentUser a,
               oauth2 := oauth2FetchReduce s.oauth2 a }

/-- Dispatching a list of actions in order. -/
def runActions (s : RootState) (acts : List Action) : RootState :=
  acts.foldl rootReduce s

/-! ### Thunk runs

A thunk run is embedded as the pair of (network requests it issues, actions it
dispatches, in program order), indexed by the outcome of the awaited API
calls.  With axios, any network failure or non-2xx status throws, landing in
the thunk's `catch` branch. -/

/-- Network requests relevant to the session verifier. -/
inductive ApiRequest where
  | getAuthMe
deriving DecidableEq, Repr

/-- Outcome of one `GET /auth/me` call: a 2xx response with its status code,
or a thrown error (network failure or non-2xx status). -/
inductive FetchResult where
  | ok (status : Nat)
  | err
deriving DecidableEq, Repr

/-- One run of the `fetchCurrentUser` thunk
(src/frontend/src/auth/current_user/current_user_slice.ts): the payload
creator unconditionally calls `getCurrentUserApi` (one request), returns
`res.status === 200` on success and `rejectWithValue(false)` on a thrown
error.  The middleware dispatches `pending` before the body runs and the
settle action after. -/
def fetchCurrentUserRun (r : FetchResult) : List ApiRequest × List Action :=
  match r with
  | .ok st =>
      ([.getAuthMe], [.currentUser .fetchPending, .currentUser (.fetchFulfilled (st == 200))])
  | .err => ([.getAuthMe], [.currentUser .fetchPending, .currentUser .fetchRejected])

/-- Actions dispatched by one `fetchCurrentUser` run. -/
def fetchTrace (r : FetchResult) : List Action := (fetchCurrentUserRun r).2

/-- Network requests issued by a set of `fetchCurrentUser` dispatches (one run
per dispatch: `createAsyncThunk` is used without any `condition` option or
promise cache, so no dispatch is deduplicated). -/
def fetchDispatchesRequests (resps : List FetchResult) : List ApiRequest :=
  resps.flatMap fun r => (fetchCurrentUserRun r).1

/-- The settle action of one `fetchCurrentUser` run. -/
def fetchSettle : FetchResult → Action
  | .ok st => .currentUser (.fetchFulfilled (st == 200))
  | .err => .currentUser .fetchRejected

/-- The App.tsx mount effect: a local `initialized` flag guards the dispatch,
but the flag is a fresh local variable initialized to `false` on every run of
the effect, so each effect run dispatches `fetchCurrentUser` exactly once
(the guard never blocks anything). -/
def appUseEffectDispatches : Nat :=
  let initialized := false
  if initialized then 0 else 1

/-- Outcome of one `POST /auth/logout` or `POST /auth/logout/all` call:
success with the response `message`, or a thrown error carrying the optional
server error body `error.response?.data?.error`. -/
inductive LogoutApiResult where
  | ok (message : String)
  | err (errorBody : Option String)
deriving DecidableEq, Repr

/-- One run of the `logoutUser` thunk
(src/frontend/src/auth/logout/logout_slice.ts): it calls `logoutApi` and
returns its data, or rejects with the server error body or the fallback
message.  It dispatches nothing besides its own lifecycle actions. -/
def logoutUserTrace : LogoutApiResult → List Action
  | .ok m => [.logout .pending, .logout (.fulfilled m)]
  | .err e => [.logout .pending, .logout (.rejected (some (e.getD "Logout failed")))]

/-- One run of the `logoutAllDevices` thunk
(src/frontend/src/auth/logout_all/logout_all_slice.ts): after `logoutAllApi`
succeeds it dispatches `clearLoginState`, then dispatches `fetchCurrentUser`
and awaits its `unwrap()`; if that inner thunk rejects, `unwrap` throws the
boolean payload, whose `.response` field is undefined, so the catch rejects
with the fallback message.  Only if the re-check fulfills does the thunk
fulfill with the logout response message. -/
def logoutAllDevicesTrace (api : LogoutApiResult) (me : FetchResult) : List Action :=
  match api with
  | .err e =>
      [.logoutAll .pending, .logoutAll (.rejected (some (e.getD "Logout all devices failed")))]
  | .ok m =>
      [.logoutAll .pending, .login .clearLoginState] ++ fetchTrace me ++
      match me with
      | .ok _ => [.logoutAll (.fulfilled m)]
      | .err => [.logoutAll (.rejected (some "Logout all devices failed"))]

/-- Outcome of one `POST /auth/login` call in the bearer variant: the token
pair, or a thrown error with the optional server error body. -/
inductive LoginApiResult where
  | ok (accessToken refreshToken : String)
  | err (errorBody : Option String)
deriving DecidableEq, Repr

/-- One run of the bearer-variant `loginUser` thunk
(src/frontend/src/auth/login/login_slice.ts, first document): it calls
`loginApi` and returns the token pair, or rejects with the server error body
or the fallback message.  It dispatches nothing besides its own lifecycle
actions — in particular it never dispatches `fetchCurrentUser`. -/
def loginUserTrace : LoginApiResult → List Action
  | .ok a r => [.login .pending, .login (.fulfilled a r)]
  | .err e => [.login .pending, .login (.rejected (some (e.getD "Login failed")))]

/-! ### Login slice, cookie-mode variant (src/frontend/src/auth/login/login_slice.ts,
second document)

State `{ loading, error, user, isAuthenticated }`.  Its `loginUser` thunk
calls `loginApi(payload)` and then `getCurrentUserApi("loginUserThunk")`
directly (plain API calls, not the `fetchCurrentUser` thunk) and returns the
fetched `{ id, email }`. -/

structure CookieUser where
  id : String
  email : String
deriving DecidableEq, Repr

structure LoginCookieState where
  loading : Bool
  error : Option String
  user : Option CookieUser
  isAuthenticated : Bool
deriving DecidableEq, Repr

/-- Initial state of the cookie-variant login slice. -/
def loginCookieInitial : LoginCookieState :=
  { loading := false, error := none, user := none, isAuthenticated := false }

/-- Actions handled by the cookie-variant login slice. -/
inductive LoginCookieAction where
  | pending
  | fulfilled (u : CookieUser)
  | rejected (payload : Option String)
  | clearLoginState
deriving DecidableEq, Repr

/-- The cookie-variant login slice reducer: `fulfilled` stores the fetched
user in the slice's own `user` field and sets the slice's own
`isAuthenticated` flag. -/
def loginCookieReduce (s : LoginCookieState) : LoginCookieAction → LoginCookieState
  | .pending => { s with loading := true, error := none }
  | .fulfilled u => { s with loading := false, user := some u, isAuthenticated := true }
  | .rejected p => { s with loading := false, error := some (p.getD "Login failed") }
  | .clearLoginState => { loading := false, error := none, user := none, isAuthenticated := false }

/-- A cookie-mode deployment pairing the cookie-variant login slice with the
session store (the current-user slice). -/
structure CookieAppState where
  login : LoginCookieState
  currentUser : CurrentUserState
deriving DecidableEq, Repr

/-- Actions of the cookie-mode deployment. -/
inductive CookieAppAction where
  | login (a : LoginCookieAction)
  | currentUser (a : CUAction)
deriving DecidableEq, Repr

/-- Combined reducer of the cookie-mode deployment. -/
def cookieAppReduce (s : CookieAppState) : CookieAppAction → CookieAppState
  | .login a => { s with login := loginCookieReduce s.login a }
  | .currentUser a => { s with currentUser := cuReduce s.currentUser a }

/-- Dispatching a list of cookie-mode actions in order. -/
def runCookieActions (s : CookieAppState) (acts : List CookieAppAction) : CookieAppState :=
  acts.foldl cookieAppReduce s

/-- Outcome of a cookie-mode login attempt: both awaited calls succeed and
yield the fetched identity, or either call throws. -/
inductive CookieLoginResult where
  | ok (u : CookieUser)
  | err (errorBody : Option String)
deriving DecidableEq, Repr

/-- One run of the cookie-variant `loginUser` thunk: its only dispatched
actions are its own lifecycle actions; the session store receives none. -/
def loginUserCookieTrace : CookieLoginResult → List CookieAppAction
  | .ok u => [.login .pending, .login (.fulfilled u)]
  | .err e => [.login .pending, .login (.rejected (some (e.getD "Login failed")))]

/-! ### Route guard (src/frontend/src/auth/ProtectedRoute.tsx) -/

/-- What `renderProtectedContent` returns: the loading placeholder, the
`<Navigate to="/login" replace />` redirect, or the protected children. -/
inductive RenderResult where
  | loader
  | redirectLogin
  | children
deriving DecidableEq, Repr

/-- JavaScript truthiness of the `boolean | null` field `isAuthenticated`:
only `true` is truthy (`null` and `false` are falsy). -/
def isTruthy : Option Bool → Bool
  | some true => true
  | _ => false

/-- `renderProtectedContent` from the route guard wired into App.tsx
(src/frontend/src/auth/ProtectedRoute.tsx): `if (loading)` show the loader;
`if (!isAuthenticated)` redirect to `/login`; otherwise render the children.
Note that `!isAuthenticated` is `true` when `isAuthenticated` is `null`. -/
def renderProtectedContent (s : CurrentUserState) : RenderResult :=
  if s.loading then .loader
  else if !(isTruthy s.isAuthenticated) then .redirectLogin
  else .children

/-- The variant guard that appears alongside the logout slice document
(ProtectedRoute variant): it shows the loader when `loading ||
isAuthenticated === null`, redirects when `isAuthenticated === false`, and
renders the children otherwise. -/
def renderProtectedContentVariant (s : CurrentUserState) : RenderResult :=
  if s.loading || s.isAuthenticated = none then .loader
  else if s.isAuthenticated = some false then .redirectLogin
  else .children

/-! ### Derived predicates used by the properties -/

/-- The session-store value the settle of one verifier run writes:
`status == 200` on a 2xx response, `false` on a thrown error. -/
def fetchResultAuth : FetchResult → Bool
  | .ok st => st == 200
  | .err => false

/-- Whether an action is a settle (fulfilled or rejected) of the bearer-variant
login thunk. -/
def isLoginSettle : Action → Bool
  | .login (.fulfilled _ _) => true
  | .login (.rejected _) => true
  | _ => false

/-- Whether an action is a settle (fulfilled or rejected) of the single-device
logout thunk. -/
def isLogoutSettle : Action → Bool
  | .logout (.fulfilled _) => true
  | .logout (.rejected _) => true
  | _ => false

/-- Whether a message-carrying flow slice holds an error and a success message
at the same time. -/
def bothMessagesSet (s : MsgState) : Bool :=
  s.error.isSome && s.successMessage.isSome

/-- `lifecycleLegal n acts` holds when, starting with `n` dispatches in
flight, every settle action in `acts` is covered by an earlier `pending`
(the thunk lifecycle: `pending` precedes `fulfilled` or `rejected`);
dispatches may overlap. -/
def lifecycleLegal : Nat → List MsgAction → Bool
  | _, [] => true
  | n, .pending :: as => lifecycleLegal (n + 1) as
  | n, .fulfilled _ :: as => decide (0 < n) && lifecycleLegal (n - 1) as
  | n, .rejected _ :: as => decide (0 < n) && lifecycleLegal (n - 1) as
  | n, .clear :: as => lifecycleLegal n as

/-- `seqLegal n acts` holds when the lifecycles in `acts` never overlap:
a `pending` may only occur with no dispatch in flight, and a settle only with
exactly the one matching dispatch in flight. -/
def seqLegal : Nat → List MsgAction → Bool
  | _, [] => true
  | n, .pending :: as => decide (n = 0) && seqLegal 1 as
  | n, .fulfilled _ :: as => decide (n = 1) && seqLegal 0 as
  | n, .rejected _ :: as => decide (n = 1) && seqLegal 0 as
  | n, .clear :: as => seqLegal n as

/-! ## Helper lemmas -/

/-- Each `fetchCurrentUser` dispatch issues exactly one network request, so a
batch of dispatches issues one request per dispatch. -/
theorem fetchDispatchesRequests_length (resps : List FetchResult) :
    (fetchDispatchesRequests resps).length = resps.length := by
  induction resps with
  | nil => rfl
  | cons r rs ih => cases r <;> simp [fetchDispatchesRequests, fetchCurrentUserRun] at ih ⊢ <;>
      simpa [fetchDispatchesRequests] using ih

/-- Only the `fetchCurrentUser` lifecycle actions and `resetAuthState` touch
the current-user slice. -/
theorem rootReduce_currentUser (s : RootState) (a : Action) :
    (rootReduce s a).currentUser =
      match a with
      | .currentUser ca => cuReduce s.currentUser ca
      | _ => s.currentUser := by
  cases a <;> rfl

/-- If the session store reads `some true` after a run, either the run
contains a positive verifier settle or the store already read `some true`. -/
theorem runActions_auth_true (acts : List Action) :
    ∀ s : RootState,
      (runActions s acts).currentUser.isAuthenticated = some true →
      Action.currentUser (CUAction.fetchFulfilled true) ∈ acts ∨
      s.currentUser.isAuthenticated = some true := by
  induction acts with
  | nil => exact fun s h => Or.inr h
  | cons a as ih =>
      intro s h
      rcases ih (rootReduce s a) h with h2 | h2
      · exact Or.inl (List.mem_cons_of_mem _ h2)
      · cases a with
        | currentUser ca =>
            cases ca with
            | fetchPending => exact Or.inr h2
            | fetchFulfilled b =>
                have hb : b = true := Option.some.inj h2
                subst hb
                exact Or.inl (List.mem_cons_self _ _)
            | fetchRejected => simp [rootReduce, cuReduce] at h2
            | resetAuthState => simp [rootReduce, cuReduce] at h2
        | login a => exact Or.inr h2
        | signup a => exact Or.inr h2
        | logout a => exact Or.inr h2
        | logoutAll a => exact Or.inr h2
        | oauth2 a => exact Or.inr h2
        | verifyAccount a => exact Or.inr h2
        | passwordResetRequest a => exact Or.inr h2
        | passwordResetConfirm a => exact Or.inr h2

/-- The route guard renders the protected children only when the store reads
authenticated and not loading. -/
theorem renderProtectedContent_children (s : CurrentUserState)
    (h : renderProtectedContent s = RenderResult.children) :
    s.isAuthenticated = some true ∧ s.loading = false := by
  rcases s with ⟨ia, l, e⟩
  rcases ia with _ | _ | _ <;> cases l <;>
    simp_all [renderProtectedContent, isTruthy]

/-! ## C1: Session Verifier single-flight -/

/-- C1, counterexample: two concurrent dispatches of `fetchCurrentUser` (for
example the App-mount trigger plus a post-OAuth2-redirect trigger) do not
share one network call — the thunk has no single-flight cache, so two
dispatches issue two `GET /auth/me` requests, refuting "exactly one network
call is issued". -/
theorem session_verifier_not_single_flight_cex :
    (fetchDispatchesRequests [FetchResult.ok 200, FetchResult.ok 200]).length ≠ 1 := by
  decide

/-- C1, amended: every dispatch of `fetchCurrentUser` issues its own
`GET /auth/me` request (one network call per dispatch, no deduplication), and
the final session status is the value written by the last-applied settle —
each response overwrites `isAuthenticated`, so concurrent callers do not
share one result. -/
theorem session_verifier_per_dispatch_calls (resps pre : List FetchResult)
    (r : FetchResult) (s : RootState) :
    (fetchDispatchesRequests resps).length = resps.length ∧
    (runActions s ((pre ++ [r]).map fetchSettle)).currentUser.isAuthenticated =
      some (fetchResultAuth r) := by
  refine ⟨fetchDispatchesRequests_length resps, ?_⟩
  simp only [List.map_append, runActions, List.foldl_append]
  cases r <;> rfl

/-! ## C2: verifier failure maps to a Degraded state distinct from Unauthenticated -/

/-- C2, counterexample: a run of `fetchCurrentUser` that ends in a network
failure sets the session store's `isAuthenticated` to `some false` — exactly
the value an explicit negative server answer (`fulfilled false`) writes.
There is no `Degraded` status distinct from the unauthenticated one, refuting
"a transient verifier failure never sets the session store to the
unauthenticated state". -/
theorem verifier_failure_cex :
    (cuReduce currentUserInitial CUAction.fetchRejected).isAuthenticated = some false ∧
    (cuReduce currentUserInitial CUAction.fetchRejected).isAuthenticated =
      (cuReduce currentUserInitial (CUAction.fetchFulfilled false)).isAuthenticated := by
  decide

/-- C2, amended: a verifier failure sets `isAuthenticated` to `false` — the
same session-status value an explicit negative answer produces — and
additionally records the fixed error message; the error string, not the
status, is the only trace of the failure. -/
theorem verifier_failure_maps_to_unauthenticated (s t : CurrentUserState) :
    (cuReduce s CUAction.fetchRejected).isAuthenticated = some false ∧
    (cuReduce s CUAction.fetchRejected).error = some "Failed to fetch current user" ∧
    (cuReduce s CUAction.fetchRejected).isAuthenticated =
      (cuReduce t (CUAction.fetchFulfilled false)).isAuthenticated := by
  exact ⟨rfl, rfl, rfl⟩

/-! ## C9: password-reset-confirm failure is local to its own slice -/

/-- C9: a rejected `confirmPasswordReset` changes only the
password-reset-confirm slice — its `error` is set (payload or fallback) and
`loading` cleared — while the session store and every other slice of the
store are unchanged. -/
theorem password_reset_confirm_rejected_frame (s : RootState) (p : Option String) :
    let t := rootReduce s (Action.passwordResetConfirm (MsgAction.rejected p))
    t.currentUser = s.currentUser ∧ t.login = s.login ∧ t.signup = s.signup ∧
    t.logout = s.logout ∧ t.logoutAll = s.logoutAll ∧ t.oauth2 = s.oauth2 ∧
    t.verifyAccount = s.verifyAccount ∧ t.passwordResetRequest = s.passwordResetRequest ∧
    t.passwordResetConfirm.loading = false ∧
    t.passwordResetConfirm.error = some (p.getD "Password reset confirmation failed") ∧
    t.passwordResetConfirm.successMessage = s.passwordResetConfirm.successMessage := by
  exact ⟨rfl, rfl, rfl, rfl, rfl, rfl, rfl, rfl, rfl, rfl, rfl⟩

/-! ## C3: after a successful logout, the session store and login flow -/

/-- C3, counterexample: a fulfilled single-device `logoutUser` run leaves both
the session store and the login slice untouched — from an authenticated state
with a stale login error, the state after a successful logout still reads
authenticated and still carries the stale login error, refuting "the session
store [is] marked Unauthenticated and the Login flow's state [is] its idle
initial state". -/
theorem logout_success_cex :
    let s := runActions
      { rootInitial with
          currentUser := { isAuthenticated := some true, loading := false, error := none },
          login := { loginInitial with error := some "bad credentials" } }
      (logoutUserTrace (LogoutApiResult.ok "Logged out successfully"))
    s.currentUser.isAuthenticated = some true ∧ s.login.error = some "bad credentials" ∧
    s.login ≠ loginInitial := by
  decide

/-- C3, amended: after `logoutAllDevices` fulfills, the login slice equals its
idle initial state (the thunk dispatched `clearLoginState`) and the session
store holds the result of the re-verification the thunk awaited — `some
(status == 200)` — rather than unconditionally `Unauthenticated`; after the
single-device `logoutUser` fulfills, the session store and the login slice
are unchanged and only the logout slice's success message is set. -/
theorem logout_success_state (s : RootState) (m : String) (st : Nat) :
    let t1 := runActions s (logoutUserTrace (LogoutApiResult.ok m))
    let t2 := runActions s (logoutAllDevicesTrace (LogoutApiResult.ok m) (FetchResult.ok st))
    (t1.currentUser = s.currentUser ∧ t1.login = s.login ∧
       t1.logout.successMessage = some m ∧ t1.logout.loading = false) ∧
    (t2.login = loginInitial ∧ t2.currentUser.isAuthenticated = some (st == 200) ∧
       t2.logoutAll.successMessage = some m ∧ t2.logoutAll.error = none) := by
  exact ⟨⟨rfl, rfl, rfl, rfl⟩, ⟨rfl, rfl, rfl, rfl⟩⟩

/-! ## C4: best-effort logout on failure -/

/-- C4, counterexample: a `logoutUser` run that rejects (for example a network
error) leaves the session store untouched — from an authenticated state the
store still reads `some true`, not the unauthenticated `some false`, refuting
"the session store is still set to Unauthenticated locally". -/
theorem logout_failure_cex :
    let s := runActions
      { rootInitial with
          currentUser := { isAuthenticated := some true, loading := false, error := none } }
      (logoutUserTrace (LogoutApiResult.err (some "Network Error")))
    s.currentUser.isAuthenticated = some true ∧ s.currentUser.isAuthenticated ≠ some false := by
  decide

/-- C4, amended: when the logout API call itself rejects, the session store
and the login slice are left unchanged — only the flow's own error is set, so
the client can still claim the user is signed in.  In the logout-all flow,
the one failure path that does unauthenticate the store is the one where the
API call succeeds but the awaited re-verification rejects: the flow then
rejects with the fallback message while the store reads `some false`. -/
theorem logout_failure_state (s : RootState) (e : Option String) (m : String) :
    let t1 := runActions s (logoutUserTrace (LogoutApiResult.err e))
    let t2 := runActions s (logoutAllDevicesTrace (LogoutApiResult.err e) FetchResult.err)
    let t3 := runActions s (logoutAllDevicesTrace (LogoutApiResult.ok m) FetchResult.err)
    (t1.currentUser = s.currentUser ∧ t1.login = s.login ∧
       t1.logout.error = some (e.getD "Logout failed")) ∧
    (t2.currentUser = s.currentUser ∧ t2.login = s.login ∧
       t2.logoutAll.error = some (e.getD "Logout all devices failed")) ∧
    (t3.currentUser.isAuthenticated = some false ∧
       t3.logoutAll.error = some "Logout all devices failed") := by
  exact ⟨⟨rfl, rfl, rfl⟩, ⟨rfl, rfl, rfl⟩, ⟨rfl, rfl⟩⟩

/-! ## C5: successful login and the session store -/

/-- C5, counterexample: in cookie mode, a successful `loginUser` run (server
returned the identity) leaves the session store untouched — it stays at its
initial not-yet-checked state, which is not an authenticated state holding an
identity; the identity lands only in the login slice's own `user` field. -/
theorem login_success_cex :
    let s := runCookieActions { login := loginCookieInitial, currentUser := currentUserInitial }
      (loginUserCookieTrace (CookieLoginResult.ok { id := "1", email := "user@example.com" }))
    s.currentUser = currentUserInitial ∧ s.currentUser.isAuthenticated ≠ some true := by
  decide

/-- C5, amended: on a successful login the login flow's own slice records the
authentication — the cookie variant stores the returned identity in its
`user` field and sets its own `isAuthenticated` flag, the bearer variant
stores the returned token pair — while the session store (the current-user
slice) is unchanged in both variants; it changes only when
`fetchCurrentUser` is dispatched separately. -/
theorem login_success_state (c : CookieAppState) (u : CookieUser) (s : RootState)
    (a r : String) :
    let t := runCookieActions c (loginUserCookieTrace (CookieLoginResult.ok u))
    let b := runActions s (loginUserTrace (LoginApiResult.ok a r))
    (t.login.user = some u ∧ t.login.isAuthenticated = true ∧ t.login.loading = false ∧
       t.currentUser = c.currentUser) ∧
    (b.login.accessToken = some a ∧ b.login.refreshToken = some r ∧
       b.currentUser = s.currentUser) := by
  exact ⟨⟨rfl, rfl, rfl, rfl⟩, ⟨rfl, rfl, rfl⟩⟩

/-! ## C6: the route guard's rendering contract -/

/-- C6, counterexample: at the not-yet-checked status (`isAuthenticated`
null, `loading` false — the store's initial state, visible on first render
before the mount effect runs), the guard wired into App.tsx redirects to the
login view instead of returning the loading placeholder, refuting "returns
the loading placeholder if the status is Unknown or Pending". -/
theorem route_guard_unknown_cex :
    renderProtectedContent { isAuthenticated := none, loading := false, error := none } ≠
      RenderResult.loader ∧
    renderProtectedContent { isAuthenticated := none, loading := false, error := none } =
      RenderResult.redirectLogin := by
  decide

/-- C6, amended: the guard returns the loading placeholder iff `loading` is
true; when not loading it redirects to the login view iff `isAuthenticated`
is not `true` (so the not-yet-checked null state redirects rather than
showing the loader, together with the unauthenticated and failure states);
it renders the protected children iff not loading and `isAuthenticated` is
`true`. -/
theorem route_guard_contract (s : CurrentUserState) :
    (renderProtectedContent s = RenderResult.loader ↔ s.loading = true) ∧
    (renderProtectedContent s = RenderResult.redirectLogin ↔
       s.loading = false ∧ s.isAuthenticated ≠ some true) ∧
    (renderProtectedContent s = RenderResult.children ↔
       s.loading = false ∧ s.isAuthenticated = some true) := by
  rcases s with ⟨ia, l, e⟩
  rcases ia with _ | _ | _ <;> cases l <;>
    simp [renderProtectedContent, isTruthy]

/-! ## C7: no speculative rendering of protected children -/

/-- C7: in every store state reachable from the initial state, if the route
guard renders the protected children then the session store reads
authenticated (`some true`, so not the unknown `null` state) and is not
loading (no verification in flight), and the run contains a positive
verifier settle — protected children appear only after a verification
resolved positively. -/
theorem route_guard_no_speculative_render (acts : List Action)
    (hc : renderProtectedContent (runActions rootInitial acts).currentUser =
            RenderResult.children) :
    Action.currentUser (CUAction.fetchFulfilled true) ∈ acts ∧
    (runActions rootInitial acts).currentUser.isAuthenticated = some true ∧
    (runActions rootInitial acts).currentUser.loading = false := by
  obtain ⟨h1, h2⟩ := renderProtectedContent_children _ hc
  refine ⟨?_, h1, h2⟩
  rcases runActions_auth_true acts rootInitial h1 with h | h
  · exact h
  · simp [rootInitial, currentUserInitial] at h

/-- C7, witness: a run consisting of one verification that resolves
positively renders the children, and the theorem recovers the positive
settle from it. -/
theorem route_guard_no_speculative_render_witness :
    Action.currentUser (CUAction.fetchFulfilled true) ∈
      [Action.currentUser CUAction.fetchPending,
       Action.currentUser (CUAction.fetchFulfilled true)] :=
  (route_guard_no_speculative_render
      [Action.currentUser CUAction.fetchPending,
       Action.currentUser (CUAction.fetchFulfilled true)] (by decide)).1

/-! ## C8: the Idle-to-Pending transition of the flow controllers -/

/-- C8, counterexample: the login flow's `pending` reducer clears only the
prior error, not the prior result — a stale access token survives the
Idle-to-Pending transition, refuting "clears both the prior error and the
prior result" for every flow. -/
theorem flow_pending_cex :
    let s := loginReduce
      { loading := false, error := some "prior error",
        accessToken := some "prior-token", refreshToken := some "prior-refresh" }
      LoginAction.pending
    s.error = none ∧ s.accessToken = some "prior-token" ∧ s.accessToken ≠ none := by
  decide

/-- C8, amended: every flow's `pending` clears the prior error, and the
message-carrying flows (such as logout and verify-account) also clear the
prior result, but the login flow's `pending` leaves the prior result (the
stored tokens) in place; each dispatch then settles exactly once — its run
contains exactly one settle action — with `fulfilled` setting the result and
`rejected` setting the error. -/
theorem flow_pending_transition (s : RootState) (t : MsgState) (m : String)
    (p : Option String) (lr : LoginApiResult) (lo : LogoutApiResult) :
    ((rootReduce s (Action.login LoginAction.pending)).login =
       { s.login with loading := true, error := none }) ∧
    ((rootReduce s (Action.logout MsgAction.pending)).logout =
       { loading := true, error := none, successMessage := none }) ∧
    ((rootReduce s (Action.verifyAccount MsgAction.pending)).verifyAccount =
       { loading := true, error := none, successMessage := none }) ∧
    ((loginUserTrace lr).filter isLoginSettle).length = 1 ∧
    ((logoutUserTrace lo).filter isLogoutSettle).length = 1 ∧
    (logoutReduce t (MsgAction.fulfilled m)).successMessage = some m ∧
    (logoutReduce t (MsgAction.rejected p)).error = some (p.getD "Logout failed") := by
  refine ⟨rfl, rfl, rfl, ?_, ?_, rfl, rfl⟩
  · cases lr <;> rfl
  · cases lo <;> rfl

/-! ## C10: a flow's error and success message are mutually exclusive -/

/-- Invariant propagation for a message-carrying flow reducer under
non-overlapping lifecycles: if `pending` and `clear` leave both message
fields empty, `fulfilled` preserves an empty error and `rejected` preserves
an empty success message, then no state reachable under `seqLegal` holds
both messages at once. -/
theorem msg_seq_fold (step : MsgState → MsgAction → MsgState)
    (hp : ∀ s, (step s MsgAction.pending).error = none ∧
               (step s MsgAction.pending).successMessage = none)
    (hf : ∀ s m, s.error = none → (step s (MsgAction.fulfilled m)).error = none)
    (hr : ∀ s m, s.successMessage = none →
            (step s (MsgAction.rejected m)).successMessage = none)
    (hc : ∀ s, (step s MsgAction.clear).error = none ∧
               (step s MsgAction.clear).successMessage = none) :
    ∀ (acts : List MsgAction) (n : Nat) (s : MsgState),
      n ≤ 1 →
      seqLegal n acts = true →
      (n = 0 → bothMessagesSet s = false) →
      (n = 1 → s.error = none ∧ s.successMessage = none) →
      bothMessagesSet (acts.foldl step s) = false := by
  intro acts
  induction acts with
  | nil =>
      intro n s hn hleg h0 h1
      interval_cases n
      · exact h0 rfl
      · obtain ⟨he, _⟩ := h1 rfl
        simp [bothMessagesSet, he]
  | cons a as ih =>
      intro n s hn hleg h0 h1
      cases a with
      | pending =>
          simp only [seqLegal, Bool.and_eq_true, decide_eq_true_eq] at hleg
          refine ih 1 (step s .pending) (by omega) hleg.2 (by omega) ?_
          exact fun _ => hp s
      | fulfilled m =>
          simp only [seqLegal, Bool.and_eq_true, decide_eq_true_eq] at hleg
          obtain ⟨he, _⟩ := h1 hleg.1
          refine ih 0 (step s (.fulfilled m)) (by omega) hleg.2 ?_ (by omega)
          intro _
          simp [bothMessagesSet, hf s m he]
      | rejected m =>
          simp only [seqLegal, Bool.and_eq_true, decide_eq_true_eq] at hleg
          obtain ⟨_, hs⟩ := h1 hleg.1
          refine ih 0 (step s (.rejected m)) (by omega) hleg.2 ?_ (by omega)
          intro _
          simp [bothMessagesSet, hr s m hs]
      | clear =>
          simp only [seqLegal] at hleg
          refine ih n (step s .clear) hn hleg ?_ ?_
          · intro _
            obtain ⟨he, _⟩ := hc s
            simp [bothMessagesSet, he]
          · exact fun _ => hc s

/-- Every logout-all reducer output leaves at most one of the two message
fields set, because each settle clears the opposite field. -/
theorem logoutAll_step_bothMessages (s : MsgState) (a : MsgAction) :
    bothMessagesSet (logoutAllReduce s a) = false := by
  cases a <;> simp [logoutAllReduce, bothMessagesSet]

/-- The logout-all slice never holds both messages, from any start state with
at most one set, under arbitrary (even overlapping) action sequences. -/
theorem logoutAll_fold_bothMessages (acts : List MsgAction) :
    ∀ s : MsgState, bothMessagesSet s = false →
      bothMessagesSet (acts.foldl logoutAllReduce s) = false := by
  induction acts with
  | nil => exact fun s h => h
  | cons a as ih => exact fun s _ => ih _ (logoutAll_step_bothMessages s a)

/-- C10, counterexample: with two overlapping dispatches — a legal order
under the thunk lifecycle, each settle preceded by its own `pending` — the
single-device logout slice reaches a state with `error` and `successMessage`
both non-null: the first dispatch rejects, the second fulfills, and the
fulfilled reducer leaves the prior error in place. -/
theorem flow_messages_exclusive_cex :
    lifecycleLegal 0
      [MsgAction.pending, MsgAction.pending, MsgAction.rejected (some "boom"),
       MsgAction.fulfilled "Logged out successfully"] = true ∧
    bothMessagesSet
      ([MsgAction.pending, MsgAction.pending, MsgAction.rejected (some "boom"),
        MsgAction.fulfilled "Logged out successfully"].foldl logoutReduce msgInitial) = true := by
  decide

/-- C10, amended: the mutual-exclusion invariant holds for the logout and
password-reset-confirm slices when lifecycles do not overlap (each dispatch
settles before the next starts): `pending` clears both fields, `fulfilled`
then sets only the success message, `rejected` only the error, and `clear`
resets both.  With overlapping dispatches those two slices can hold both
messages at once (their `fulfilled` leaves a prior error in place and their
`rejected` a prior success message); the logout-all slice clears the
opposite field on every settle and keeps the invariant even under
overlap. -/
theorem flow_messages_exclusive_seq (acts acts2 : List MsgAction)
    (h : seqLegal 0 acts = true) :
    bothMessagesSet (acts.foldl logoutReduce msgInitial) = false ∧
    bothMessagesSet (acts.foldl passwordResetConfirmReduce msgInitial) = false ∧
    bothMessagesSet (acts2.foldl logoutAllReduce msgInitial) = false := by
  refine ⟨?_, ?_, logoutAll_fold_bothMessages acts2 msgInitial rfl⟩
  · refine msg_seq_fold logoutReduce (fun s => ⟨rfl, rfl⟩)
      (fun s m hs => by simp [logoutReduce, hs])
      (fun s m hs => by simp [logoutReduce, hs])
      (fun s => ⟨rfl, rfl⟩) acts 0 msgInitial (by omega) h (fun _ => rfl)
      (fun h1 => absurd h1 (by decide))
  · refine msg_seq_fold passwordResetConfirmReduce (fun s => ⟨rfl, rfl⟩)
      (fun s m hs => by simp [passwordResetConfirmReduce, hs])
      (fun s m hs => by simp [passwordResetConfirmReduce, hs])
      (fun s => ⟨rfl, rfl⟩) acts 0 msgInitial (by omega) h (fun _ => rfl)
      (fun h1 => absurd h1 (by decide))

/-- C10, witness for the amended theorem: a non-overlapping sequence — one
fulfilled lifecycle then one rejected lifecycle — never leaves both messages
set on any of the three slices. -/
theorem flow_messages_exclusive_seq_witness :
    bothMessagesSet
      ([MsgAction.pending, MsgAction.fulfilled "ok", MsgAction.pending,
        MsgAction.rejected (some "boom")].foldl logoutReduce msgInitial) = false :=
  (flow_messages_exclusive_seq
      [MsgAction.pending, MsgAction.fulfilled "ok", MsgAction.pending,
       MsgAction.rejected (some "boom")]
      [MsgAction.pending, MsgAction.fulfilled "ok"] (by decide)).1

end FrontendAuth
